import Mathlib

set_option maxRecDepth 100000

/-!
Verification development for the `avi-rs` repository: a shallow embedding of
the RIFF tree reader (`src/riff.rs`), the byte codec (`src/bytes.rs`), the
FourCC helpers (`src/fourcc.rs`) and the AVI layer (`src/lib.rs`).

Modelling conventions:
* A byte source is a `List Nat` of bytes together with an explicit cursor.
  Every read primitive returns `Except AErr (result × newCursor)`.
* Machine integers are `Nat` (u16/u32/u64) or `Int` (i16); a byte is
  normalised with `% 256` when extracted from the source.
* Rust `u32` arithmetic is modelled with debug-build semantics: unchecked
  `-`/`+` that would under/overflow abort, modelled by the `AErr.panicked`
  outcome, which also models out-of-bounds slice indexing.
* Fallible operations return `Except`; I/O failures (short `read_exact`)
  are `AErr.ioErr`; errors propagated as `Box<dyn Error>` from UTF-8 or
  integer parsing are `AErr.parseErr`.
* Loops are encoded as recursion; the RIFF descent recursion is bounded by
  an explicit `fuel` parameter whose exhaustion yields the distinguished
  `AErr.fuelOut` (never produced when the fuel exceeds the source length).
-/

namespace Avi

/-! ## Byte codec (src/bytes.rs) -/

/-- A byte fetched from the source at index `i`; out-of-range reads are
performed only after explicit bounds checks, so the default 0 is never
observed there.  `% 256` records that a stored byte is 0..255. -/
def getByte (src : List Nat) (i : Nat) : Nat := src.getD i 0 % 256

/-- `LittleEndian::read_u16`: `(b[o+1] << 8) | b[o]`. -/
def leU16 (buf : List Nat) (off : Nat) : Nat :=
  buf.getD off 0 + 256 * buf.getD (off + 1) 0

/-- `LittleEndian::read_u32`. -/
def leU32 (buf : List Nat) (off : Nat) : Nat :=
  buf.getD off 0 + 256 * buf.getD (off + 1) 0 + 65536 * buf.getD (off + 2) 0 +
    16777216 * buf.getD (off + 3) 0

/-- `BigEndian::read_u32`. -/
def beU32 (buf : List Nat) (off : Nat) : Nat :=
  16777216 * buf.getD off 0 + 65536 * buf.getD (off + 1) 0 +
    256 * buf.getD (off + 2) 0 + buf.getD (off + 3) 0

/-- `LittleEndian::read_i16`, reinterpreting the 16-bit pattern as signed. -/
def leI16 (buf : List Nat) (off : Nat) : Int :=
  let v := leU16 buf off
  if v < 32768 then (v : Int) else (v : Int) - 65536

/-- `LittleEndian::read_i32`, reinterpreting the 32-bit pattern as signed. -/
def leI32 (buf : List Nat) (off : Nat) : Int :=
  let v := leU32 buf off
  if v < 2147483648 then (v : Int) else (v : Int) - 4294967296

/-! ## Errors (src/riff.rs `RiffError`, src/lib.rs `AviError`) -/

/-- `RiffError` from src/riff.rs. -/
inductive RiffError where
  | invalidRiffHeader
  | invalidListHeader
  | invalidChunkHeader
  | invalidChunkCast
  | invalidListCast
deriving DecidableEq

/-- `AviError` from src/lib.rs. -/
inductive AviError where
  | duplicateHdrlList
  | duplicateMoviList
  | duplicateIdx1Chunk
  | hdrlNotFound
  | moviNotFound
  | invalidRiffFileType
  | invalidHdrlList
  | invalidMoviList
  | invalidMainHeader
  | invalidStreamList
  | invalidStreamHeader
  | invalidStreamFormatHeader
  | invalidStreamAdditionalData
  | invalidAviMoviHeader
  | invalidIndexHeader
  | invalidRecordList
  | invalidBufferReadSize
  | chunkInRecordList
  | unsupportedStreamType
deriving DecidableEq

/-- The error universe of the embedding: classified RIFF/AVI errors,
I/O failures, propagated parse failures, Rust debug-build aborts
(index out of bounds, u32 under/overflow), and fuel exhaustion. -/
inductive AErr where
  | riffErr (e : RiffError)
  | aviErr (e : AviError)
  | ioErr
  | parseErr
  | panicked
  | fuelOut
deriving DecidableEq

/-- Checked `u32` subtraction (Rust debug semantics: underflow aborts). -/
def u32checkedSub (a b : Nat) : Except AErr Nat :=
  if b ≤ a then .ok (a - b) else .error .panicked

/-- Checked `u32` addition (Rust debug semantics: overflow aborts). -/
def u32checkedAdd (a b : Nat) : Except AErr Nat :=
  if a + b < 4294967296 then .ok (a + b) else .error .panicked

/-- Checked list indexing, as Rust's `l[i]` (panics out of bounds). -/
def listGetChecked (l : List Nat) (i : Nat) : Except AErr Nat :=
  if h : i < l.length then .ok (l.get ⟨i, h⟩) else .error .panicked

/-- Checked list element replacement, as Rust's `l[i] = v`. -/
def listSetChecked (l : List Nat) (i v : Nat) : Except AErr (List Nat) :=
  if i < l.length then .ok (l.set i v) else .error .panicked

/-- Boolean success test on `Except`. -/
def isOkB {α : Type} (e : Except AErr α) : Bool :=
  match e with
  | .ok _ => true
  | .error _ => false

/-! ## Read primitives of the byte source

The source is a `List Nat`; `cur` is the stream cursor.  `read_exact`
fails (kind `ioErr`) when fewer than `n` bytes remain; the plain `read`
used by `RiffUtil::read_fourcc` fills as many of the 4 bytes as remain. -/

/-- The `n` bytes of `src` starting at `pos` (callers bound-check first). -/
def extractBytes (src : List Nat) (pos n : Nat) : List Nat :=
  (List.range n).map (fun i => getByte src (pos + i))

/-- `read_exact` into an `n`-byte buffer at cursor `cur`. -/
def readExact (src : List Nat) (cur n : Nat) : Except AErr (List Nat × Nat) :=
  if cur + n ≤ src.length then .ok (extractBytes src cur n, cur + n)
  else .error .ioErr

/-! ## FourCC (src/fourcc.rs) and RIFF structures (src/riff.rs) -/

/-- A FourCC is its underlying big-endian `u32` (src/fourcc.rs). -/
abbrev FourCC := Nat

/-- `Into<[u8;4]> for &FourCC`: big-endian decomposition of the tag. -/
def fourccBytes (fc : FourCC) : List Nat :=
  [fc / 16777216 % 256, fc / 65536 % 256, fc / 256 % 256, fc % 256]

def RIFF_TYPE : FourCC := 0x52494646
def LIST_TYPE : FourCC := 0x4C495354

structure RiffHeader where
  fileSize : Nat
  fileType : FourCC

structure RiffChunkHeader where
  ckId : FourCC
  ckSize : Nat
  dataPos : Nat
deriving DecidableEq

structure RiffListHeader where
  listType : FourCC
  listSize : Nat
  dataPos : Nat
deriving DecidableEq

/-- A RIFF node: the `RiffNode` trait objects of src/riff.rs, as the tagged
variant the spec describes (chunks always have empty child vectors). -/
inductive RiffNode where
  | chunk (header : RiffChunkHeader)
  | list (header : RiffListHeader) (childs : List RiffNode)

structure RiffTree where
  header : RiffHeader
  childs : List RiffNode

/-- `RiffChunk::padding`: `m = ck_size % 2; if m != 0 { 2 - m } else { 0 }`. -/
def RiffChunk.padding (ckSize : Nat) : Nat :=
  let m := ckSize % 2
  if m ≠ 0 then 2 - m else 0

/-- `RiffNode::id` (a list answers its `list_type`). -/
def RiffNode.id : RiffNode → FourCC
  | .chunk h => h.ckId
  | .list h _ => h.listType

/-- `RiffNode::data_pos`. -/
def RiffNode.dataPos : RiffNode → Nat
  | .chunk h => h.dataPos
  | .list h _ => h.dataPos

/-- `RiffNode::data_size` (a list answers `list_size - 4`; constructed lists
always have `list_size ≥ 4`, see `u32checkedSub` in the readers). -/
def RiffNode.dataSize : RiffNode → Nat
  | .chunk h => h.ckSize
  | .list h _ => h.listSize - 4

/-- `RiffNode::padding` (zero for lists). -/
def RiffNode.padding : RiffNode → Nat
  | .chunk h => RiffChunk.padding h.ckSize
  | .list _ _ => 0

/-- `RiffNode::childs` (empty for chunks). -/
def RiffNode.childs : RiffNode → List RiffNode
  | .chunk _ => []
  | .list _ cs => cs

/-- `RiffNode::as_chunk`. -/
def RiffNode.asChunk : RiffNode → Except AErr RiffChunkHeader
  | .chunk h => .ok h
  | .list _ _ => .error (.riffErr .invalidChunkCast)

/-- `RiffNode::as_list` (returns the list header and children). -/
def RiffNode.asList : RiffNode → Except AErr (RiffListHeader × List RiffNode)
  | .chunk _ => .error (.riffErr .invalidListCast)
  | .list h cs => .ok (h, cs)

/-! ## RIFF reading (src/riff.rs) -/

/-- `RiffUtil::read_fourcc`: a plain `read` of up to 4 bytes (a short read
near EOF leaves the remaining buffer bytes zero), then a big-endian u32. -/
def RiffUtil.readFourcc (src : List Nat) (cur : Nat) : FourCC × Nat :=
  let k := min 4 (src.length - cur)
  let buf := (List.range 4).map (fun i => if i < k then getByte src (cur + i) else 0)
  (beU32 buf 0, cur + k)

/-- `RiffUtil::read_fourcc_async`: identical body to the blocking flavor. -/
def RiffUtil.readFourccAsync (src : List Nat) (cur : Nat) : FourCC × Nat :=
  let k := min 4 (src.length - cur)
  let buf := (List.range 4).map (fun i => if i < k then getByte src (cur + i) else 0)
  (beU32 buf 0, cur + k)

/-- `RiffTree::read_childs` (blocking): the recursive descent over a region
`(pos, size)` of a source whose physical length check uses `fileSize`.
The `while` loop is encoded as fuel-bounded recursion; the result carries
the final cursor. -/
def RiffTree.readChilds :
    Nat → List Nat → Nat → Nat → Nat → Nat → Except AErr (List RiffNode × Nat)
  | 0, _, _, _, _, _ => .error .fuelOut
  | fuel + 1, src, cur, pos, size, fileSize =>
    if cur < pos + size then
      let fc := RiffUtil.readFourcc src cur
      if fc.1 = LIST_TYPE then
        match readExact src fc.2 8 with
        | .error e => .error e
        | .ok (buf, cur2) =>
          let listSize := leU32 buf 0
          let listType := beU32 buf 4
          if pos + (12 - 4) + listSize ≥ fileSize then
            .error (.riffErr .invalidListHeader)
          else
            match u32checkedSub listSize 4 with
            | .error e => .error e
            | .ok innerSize =>
              match RiffTree.readChilds fuel src cur2 cur2 innerSize fileSize with
              | .error e => .error e
              | .ok (inner, cur3) =>
                match RiffTree.readChilds fuel src cur3 pos size fileSize with
                | .error e => .error e
                | .ok (rest, cur4) =>
                  .ok (RiffNode.list ⟨listType, listSize, cur2⟩ inner :: rest, cur4)
      else
        match readExact src fc.2 4 with
        | .error e => .error e
        | .ok (buf, cur2) =>
          let chunkSize := leU32 buf 0
          if pos + 8 + chunkSize ≥ fileSize then
            .error (.riffErr .invalidChunkHeader)
          else
            match u32checkedAdd chunkSize (RiffChunk.padding chunkSize) with
            | .error e => .error e
            | .ok skip =>
              match RiffTree.readChilds fuel src (cur2 + skip) pos size fileSize with
              | .error e => .error e
              | .ok (rest, cur4) =>
                .ok (RiffNode.chunk ⟨fc.1, chunkSize, cur2⟩ :: rest, cur4)
    else .ok ([], cur)

/-- `RiffTree::read_childs_async`: identical structure to the blocking
flavor, every I/O step a suspension point in the source. -/
def RiffTree.readChildsAsync :
    Nat → List Nat → Nat → Nat → Nat → Nat → Except AErr (List RiffNode × Nat)
  | 0, _, _, _, _, _ => .error .fuelOut
  | fuel + 1, src, cur, pos, size, fileSize =>
    if cur < pos + size then
      let fc := RiffUtil.readFourccAsync src cur
      if fc.1 = LIST_TYPE then
        match readExact src fc.2 8 with
        | .error e => .error e
        | .ok (buf, cur2) =>
          let listSize := leU32 buf 0
          let listType := beU32 buf 4
          if pos + (12 - 4) + listSize ≥ fileSize then
            .error (.riffErr .invalidListHeader)
          else
            match u32checkedSub listSize 4 with
            | .error e => .error e
            | .ok innerSize =>
              match RiffTree.readChildsAsync fuel src cur2 cur2 innerSize fileSize with
              | .error e => .error e
              | .ok (inner, cur3) =>
                match RiffTree.readChildsAsync fuel src cur3 pos size fileSize with
                | .error e => .error e
                | .ok (rest, cur4) =>
                  .ok (RiffNode.list ⟨listType, listSize, cur2⟩ inner :: rest, cur4)
      else
        match readExact src fc.2 4 with
        | .error e => .error e
        | .ok (buf, cur2) =>
          let chunkSize := leU32 buf 0
          if pos + 8 + chunkSize ≥ fileSize then
            .error (.riffErr .invalidChunkHeader)
          else
            match u32checkedAdd chunkSize (RiffChunk.padding chunkSize) with
            | .error e => .error e
            | .ok skip =>
              match RiffTree.readChildsAsync fuel src (cur2 + skip) pos size fileSize with
              | .error e => .error e
              | .ok (rest, cur4) =>
                .ok (RiffNode.chunk ⟨fc.1, chunkSize, cur2⟩ :: rest, cur4)
    else .ok ([], cur)

/-- `RiffTree::read` (blocking entry point): length probe, 12-byte top
header, `RIFF`/size validation, then child descent over the payload. -/
def RiffTree.read (fuel : Nat) (src : List Nat) : Except AErr RiffTree :=
  let riffFileLen := src.length
  match readExact src 0 12 with
  | .error e => .error e
  | .ok (buf, cur) =>
    let riffType := beU32 buf 0
    let riffFileSize := leU32 buf 4
    let riffFileType := beU32 buf 8
    if riffType ≠ RIFF_TYPE ∨ riffFileSize > riffFileLen ∨ riffFileSize < 4 then
      .error (.riffErr .invalidRiffHeader)
    else
      match u32checkedSub riffFileSize 4 with
      | .error e => .error e
      | .ok topSize =>
        match RiffTree.readChilds fuel src cur cur topSize riffFileLen with
        | .error e => .error e
        | .ok (cs, _) => .ok ⟨⟨riffFileSize, riffFileType⟩, cs⟩

/-- `RiffTree::read_async` (cooperative-concurrent entry point): identical
body over the async descent. -/
def RiffTree.readAsync (fuel : Nat) (src : List Nat) : Except AErr RiffTree :=
  let riffFileLen := src.length
  match readExact src 0 12 with
  | .error e => .error e
  | .ok (buf, cur) =>
    let riffType := beU32 buf 0
    let riffFileSize := leU32 buf 4
    let riffFileType := beU32 buf 8
    if riffType ≠ RIFF_TYPE ∨ riffFileSize > riffFileLen ∨ riffFileSize < 4 then
      .error (.riffErr .invalidRiffHeader)
    else
      match u32checkedSub riffFileSize 4 with
      | .error e => .error e
      | .ok topSize =>
        match RiffTree.readChildsAsync fuel src cur cur topSize riffFileLen with
        | .error e => .error e
        | .ok (cs, _) => .ok ⟨⟨riffFileSize, riffFileType⟩, cs⟩

/-! ## AVI layer constants (src/lib.rs, src/mmreg.rs) -/

def AVI_FILE_TYPE : FourCC := 0x41564920
def HDRL_TYPE : FourCC := 0x6864726C
def MOVI_TYPE : FourCC := 0x6D6F7669
def AVIH_TYPE : FourCC := 0x61766968
def STRD_TYPE : FourCC := 0x73747264
def STRN_TYPE : FourCC := 0x7374726E
def IDX1_TYPE : FourCC := 0x69647831
def AUDIO_STREAM_TYPE : FourCC := 0x61756473
def VIDEO_STREAM_TYPE : FourCC := 0x76696473

/-- Max stream count because of fourcc limits, e.g. `00wb`–`99wb`. -/
def AVI_MAX_STREAMS : Nat := 100

/-- Modelled from the spec: `WAVE_FORMAT_PCM = 0x0001` (src/mmreg.rs is not
present under src/; the constant is given in spec §6). -/
def WAVE_FORMAT_PCM : Nat := 0x0001

/-- Modelled from the spec: `WAVE_FORMAT_EXTENSIBLE = 0xFFFE` (src/mmreg.rs
is not present under src/; the constant is given in spec §6). -/
def WAVE_FORMAT_EXTENSIBLE : Nat := 0xFFFE

/-- `std::mem::size_of::<AviMainHeader>()`: ten `u32` fields plus a
`[u32;4]`, so 56 bytes with no padding. -/
def sizeOfAviMainHeader : Nat := 56

/-- `std::mem::size_of::<AviStreamHeader>()`: 12 `u32`-sized fields, two
`u16`s and an 8-byte `Rect`, so 56 bytes with no padding. -/
def sizeOfAviStreamHeader : Nat := 56

/-- `std::mem::size_of::<AviBitmapInfo>()`: 40 bytes with no padding. -/
def sizeOfAviBitmapInfo : Nat := 40

/-- `std::mem::size_of::<AviWaveInfo>()`: six integer fields totalling 16
bytes plus a 4-byte `Option<u16>` (a `u16` has no niche, so the option
carries a tag rounded to 2-byte alignment), so 20 bytes. -/
def sizeOfAviWaveInfo : Nat := 20

/-- `std::mem::size_of::<Option<u16>>()` = 4 (tag byte, padding, payload). -/
def sizeOfOptionU16 : Nat := 4

/-- `std::mem::size_of::<AviWaveExtraInfo>()`: a 2-byte union, a `u32` and a
16-byte `Guid`, 4-byte aligned, so 24 bytes with padding. -/
def sizeOfAviWaveExtraInfo : Nat := 24

/-! ## AVI data structures (src/lib.rs) -/

structure Rect where
  left : Int
  top : Int
  right : Int
  bottom : Int

structure Guid where
  data1 : Nat
  data2 : Nat
  data3 : Nat
  data4 : List Nat

structure AviMainHeader where
  dwMicroSecPerFrame : Nat
  dwMaxBytesPerSec : Nat
  dwPaddingGranularity : Nat
  dwFlags : Nat
  dwTotalFrames : Nat
  dwInitialFrames : Nat
  dwStreams : Nat
  dwSuggestedBufferSize : Nat
  dwWidth : Nat
  dwHeight : Nat
  dwReserved : List Nat

structure AviStreamHeader where
  fccType : FourCC
  fccHandler : FourCC
  dwFlags : Nat
  wPriority : Nat
  wLanguage : Nat
  dwInitialFrames : Nat
  dwScale : Nat
  dwRate : Nat
  dwStart : Nat
  dwLength : Nat
  dwSuggestedBufferSize : Nat
  dwQuality : Nat
  dwSampleSize : Nat
  rcFrame : Rect

structure AviBitmapInfo where
  biSize : Nat
  biWidth : Int
  biHeight : Int
  biPlanes : Nat
  biBitCount : Nat
  biCompression : Nat
  biSizeImage : Nat
  biXPelsPerMeter : Int
  biYPelsPerMeter : Int
  biClrUsed : Nat
  biClrImportant : Nat

structure AviWaveInfo where
  wFormatTag : Nat
  nChannels : Nat
  nSamplesPerSec : Nat
  nAvgBytesPerSec : Nat
  nBlockAlign : Nat
  wBitsPerSample : Nat
  cbSize : Option Nat

/-- `AviWaveExtraInfo`; the union-like 2-byte sample-info word is stored as
a single opaque 16-bit value. -/
structure AviWaveExtraInfo where
  samples : Nat
  dwChannelMask : Nat
  subFormat : Guid

structure AviWaveInfoExt where
  format : AviWaveInfo
  extra : Option AviWaveExtraInfo

structure AviStreamFormat where
  video : Option AviBitmapInfo
  audio : Option AviWaveInfoExt

structure AviStreamListItem where
  index : Nat
  strh : AviStreamHeader
  strf : AviStreamFormat
  strd : Option (List Nat)
  strn : Option (List Nat)

structure AviHeader where
  avih : AviMainHeader
  strl : List AviStreamListItem

structure AviStreamChunk where
  recIndex : Option Nat
  chunkIndex : Nat
  streamIndex : Nat
  chunk : RiffChunkHeader

structure AviStream where
  index : Nat
  format : AviStreamFormat
  chunks : List AviStreamChunk

structure RiffChunkList where
  header : RiffListHeader
  childs : List RiffChunkHeader

/-- The parsed reader (minus the owned byte source, which the embedding
passes explicitly). -/
structure AviAsyncReader where
  header : AviHeader
  riffTree : RiffTree
  movi : List AviStream
  recs : List RiffChunkList

/-! ## AVI record decoding (src/lib.rs `read_async` impls) -/

/-- `AviMainHeader::read_async`: 56-byte little-endian record whose last
four words must be zero. -/
def AviMainHeader.readAsync (src : List Nat) (cur : Nat) :
    Except AErr (AviMainHeader × Nat) :=
  match readExact src cur sizeOfAviMainHeader with
  | .error e => .error e
  | .ok (buf, cur1) =>
    if leU32 buf 40 ≠ 0 ∨ leU32 buf 44 ≠ 0 ∨ leU32 buf 48 ≠ 0 ∨ leU32 buf 52 ≠ 0 then
      .error (.aviErr .invalidMainHeader)
    else
      .ok ({ dwMicroSecPerFrame := leU32 buf 0
             dwMaxBytesPerSec := leU32 buf 4
             dwPaddingGranularity := leU32 buf 8
             dwFlags := leU32 buf 12
             dwTotalFrames := leU32 buf 16
             dwInitialFrames := leU32 buf 20
             dwStreams := leU32 buf 24
             dwSuggestedBufferSize := leU32 buf 28
             dwWidth := leU32 buf 32
             dwHeight := leU32 buf 36
             dwReserved := [0, 0, 0, 0] }, cur1)

/-- `AviStreamHeader::read_async`: 56 bytes; the two leading FourCCs are
big-endian, everything else little-endian. -/
def AviStreamHeader.readAsync (src : List Nat) (cur : Nat) :
    Except AErr (AviStreamHeader × Nat) :=
  match readExact src cur sizeOfAviStreamHeader with
  | .error e => .error e
  | .ok (buf, cur1) =>
    .ok ({ fccType := beU32 buf 0
           fccHandler := beU32 buf 4
           dwFlags := leU32 buf 8
           wPriority := leU16 buf 12
           wLanguage := leU16 buf 14
           dwInitialFrames := leU32 buf 16
           dwScale := leU32 buf 20
           dwRate := leU32 buf 24
           dwStart := leU32 buf 28
           dwLength := leU32 buf 32
           dwSuggestedBufferSize := leU32 buf 36
           dwQuality := leU32 buf 40
           dwSampleSize := leU32 buf 44
           rcFrame := ⟨leI16 buf 48, leI16 buf 50, leI16 buf 52, leI16 buf 54⟩ }, cur1)

/-- `AviBitmapInfo::read_async`: 40-byte little-endian record. -/
def AviBitmapInfo.readAsync (src : List Nat) (cur : Nat) :
    Except AErr (AviBitmapInfo × Nat) :=
  match readExact src cur sizeOfAviBitmapInfo with
  | .error e => .error e
  | .ok (buf, cur1) =>
    .ok ({ biSize := leU32 buf 0
           biWidth := leI32 buf 4
           biHeight := leI32 buf 8
           biPlanes := leU16 buf 12
           biBitCount := leU16 buf 14
           biCompression := leU32 buf 16
           biSizeImage := leU32 buf 20
           biXPelsPerMeter := leI32 buf 24
           biYPelsPerMeter := leI32 buf 28
           biClrUsed := leU32 buf 32
           biClrImportant := leU32 buf 36 }, cur1)

/-- `AviWaveInfo::read_async`: 16 bytes, then a 2-byte `cb_size` iff the
format tag differs from `WAVE_FORMAT_PCM`. -/
def AviWaveInfo.readAsync (src : List Nat) (cur : Nat) :
    Except AErr (AviWaveInfo × Nat) :=
  match readExact src cur 16 with
  | .error e => .error e
  | .ok (buf, cur1) =>
    let wFormatTag := leU16 buf 0
    let cbRead : Except AErr (Option Nat × Nat) :=
      if wFormatTag ≠ WAVE_FORMAT_PCM then
        match readExact src cur1 2 with
        | .error e => .error e
        | .ok (cbuf, cur2) => .ok (some (leU16 cbuf 0), cur2)
      else .ok (none, cur1)
    match cbRead with
    | .error e => .error e
    | .ok (cbSize, cur2) =>
      .ok ({ wFormatTag
             nChannels := leU16 buf 2
             nSamplesPerSec := leU32 buf 4
             nAvgBytesPerSec := leU32 buf 8
             nBlockAlign := leU16 buf 12
             wBitsPerSample := leU16 buf 14
             cbSize }, cur2)

/-- The loop `for i in 14..22 { data4[i] = buf[i]; }` of
`AviWaveInfoExt::read_async`, with Rust's checked indexing on both sides
(the write target `data4` has length 8). -/
def guidCopy (buf : List Nat) : List Nat → List Nat → Except AErr (List Nat)
  | data4, [] => .ok data4
  | data4, i :: rest =>
    match listGetChecked buf i with
    | .error e => .error e
    | .ok v =>
      match listSetChecked data4 i v with
      | .error e => .error e
      | .ok d => guidCopy buf d rest

/-- `AviWaveInfoExt::read_async`: the base wave info, then iff the tag is
`WAVE_FORMAT_EXTENSIBLE` the extension block of
`size_of::<AviWaveExtraInfo>()` bytes and the GUID-tail copy loop. -/
def AviWaveInfoExt.readAsync (src : List Nat) (cur : Nat) :
    Except AErr (AviWaveInfoExt × Nat) :=
  match AviWaveInfo.readAsync src cur with
  | .error e => .error e
  | .ok (format, cur1) =>
    if format.wFormatTag = WAVE_FORMAT_EXTENSIBLE then
      match readExact src cur1 sizeOfAviWaveExtraInfo with
      | .error e => .error e
      | .ok (buf, cur2) =>
        match guidCopy buf (List.replicate 8 0) (List.range' 14 8) with
        | .error e => .error e
        | .ok data4 =>
          .ok ({ format
                 extra := some { samples := leU16 buf 0
                                 dwChannelMask := leU32 buf 2
                                 subFormat := { data1 := leU32 buf 6
                                                data2 := leU16 buf 10
                                                data3 := leU16 buf 12
                                                data4 } } }, cur2)
    else .ok ({ format, extra := none }, cur1)

/-! ## Stream-index parsing (src/lib.rs `AviUtil::parse_stream_index`) -/

/-- An ASCII decimal digit byte. -/
def isAsciiDigit (b : Nat) : Bool := 48 ≤ b ∧ b ≤ 57

/-- `std::str::from_utf8` on the two leading FourCC bytes: both ASCII, or a
single valid 2-byte UTF-8 sequence. -/
def utf8Valid2 (b0 b1 : Nat) : Bool :=
  (b0 < 128 ∧ b1 < 128) ∨ (194 ≤ b0 ∧ b0 ≤ 223 ∧ 128 ≤ b1 ∧ b1 ≤ 191)

/-- The digit-accumulation loop of Rust's `from_str_radix` at radix 10 for
`u8`: each byte must be a decimal digit and the running value must stay
within `u8` (checked multiply-add). -/
def parseDigits : List Nat → Nat → Except AErr Nat
  | [], acc => .ok acc
  | c :: rest, acc =>
    if isAsciiDigit c then
      let acc' := acc * 10 + (c - 48)
      if acc' ≤ 255 then parseDigits rest acc' else .error .parseErr
    else .error .parseErr

/-- Rust's `str::parse::<u8>` over the string's bytes: a leading `'+'` is
consumed as a sign (a bare sign is an error; `'-'` is not a sign for an
unsigned type and fails as a non-digit), then the digit loop runs. -/
def rustParseU8 (s : List Nat) : Except AErr Nat :=
  match s with
  | [] => .error .parseErr
  | c :: rest =>
    if c = 43 ∧ rest = [] then .error .parseErr
    else
      let digits := if c = 43 then rest else s
      parseDigits digits 0

/-- `AviUtil::parse_stream_index`: big-endian FourCC bytes, UTF-8-validate
the first two, parse them as a `u8`. -/
def AviUtil.parseStreamIndex (fc : FourCC) : Except AErr Nat :=
  let buf := fourccBytes fc
  let b0 := buf.getD 0 0
  let b1 := buf.getD 1 0
  if utf8Valid2 b0 b1 then rustParseU8 [b0, b1] else .error .parseErr

/-! ## `AviAsyncReader::read_header` (src/lib.rs lines 434-651) -/

/-- The classifying scan over the top-level RIFF children (lines 446-464):
at most one `hdrl`, one `movi`, one `idx1`; other ids are ignored. -/
def scanTop : List RiffNode → Option RiffNode → Option RiffNode → Option RiffNode →
    Except AErr (Option RiffNode × Option RiffNode × Option RiffNode)
  | [], h, m, i => .ok (h, m, i)
  | c :: rest, h, m, i =>
    if c.id = HDRL_TYPE then
      match h with
      | some _ => .error (.aviErr .duplicateHdrlList)
      | none => scanTop rest (some c) m i
    else if c.id = MOVI_TYPE then
      match m with
      | some _ => .error (.aviErr .duplicateMoviList)
      | none => scanTop rest h (some c) i
    else if c.id = IDX1_TYPE then
      match i with
      | some _ => .error (.aviErr .duplicateIdx1Chunk)
      | none => scanTop rest h m (some c)
    else scanTop rest h m i

/-- Checked indexing into the children vector, as Rust's `&hdrl_childs[0]`
(panics when out of bounds). -/
def nodeIndexChecked (l : List RiffNode) (i : Nat) : Except AErr RiffNode :=
  if h : i < l.length then .ok (l.get ⟨i, h⟩) else .error .panicked

/-- The audio `strf` size test of line 516:
`(data_size as usize) < size_of::<AviWaveInfo>() - size_of::<Option<u16>>()`
rejects the stream format header. -/
def audsStrfSizeOk (size : Nat) : Bool :=
  ! (size < sizeOfAviWaveInfo - sizeOfOptionU16)

/-- The `avih` size test of line 478: the first hdrl child's declared data
size must equal `size_of::<AviMainHeader>()`; nothing else is inspected. -/
def avihSizeOk (node : RiffNode) : Bool :=
  node.dataSize = sizeOfAviMainHeader

/-- The `strl` loop of lines 487-575: each remaining hdrl child in order,
seeking to its `strh`, then reading the format (and the optional third and
fourth children) by continuing forward from the cursor. `i` is the loop
counter of the source (the item index is `i - 1`). -/
def parseStrls (src : List Nat) : Nat → Nat → List RiffNode →
    Except AErr (List AviStreamListItem × Nat)
  | cur, _, [] => .ok ([], cur)
  | _, i, child :: rest =>
    let strlChilds := child.childs
    let n := strlChilds.length
    if n < 2 ∨ n > 4 then .error (.aviErr .invalidStreamList)
    else
      match strlChilds with
      | strhNode :: strfNode :: restChilds =>
        if strhNode.dataSize ≠ sizeOfAviStreamHeader then
          .error (.aviErr .invalidStreamHeader)
        else
          match AviStreamHeader.readAsync src strhNode.dataPos with
          | .error e => .error e
          | .ok (strh, cur1) =>
            let strfRead : Except AErr (AviStreamFormat × Nat) :=
              if strh.fccType = VIDEO_STREAM_TYPE then
                if strfNode.dataSize ≠ sizeOfAviBitmapInfo then
                  .error (.aviErr .invalidStreamFormatHeader)
                else
                  match AviBitmapInfo.readAsync src cur1 with
                  | .error e => .error e
                  | .ok (abih, cur2) => .ok (⟨some abih, none⟩, cur2)
              else if strh.fccType = AUDIO_STREAM_TYPE then
                if audsStrfSizeOk strfNode.dataSize then
                  match AviWaveInfoExt.readAsync src cur1 with
                  | .error e => .error e
                  | .ok (awie, cur2) => .ok (⟨none, some awie⟩, cur2)
                else .error (.aviErr .invalidStreamFormatHeader)
              else .error (.aviErr .unsupportedStreamType)
            match strfRead with
            | .error e => .error e
            | .ok (strf, cur2) =>
              let item : AviStreamListItem :=
                { index := i - 1, strh, strf, strd := none, strn := none }
              if n = 2 then
                match parseStrls src cur2 (i + 1) rest with
                | .error e => .error e
                | .ok (items, cur3) => .ok (item :: items, cur3)
              else if n = 3 then
                match restChilds with
                | [last] =>
                  if last.id ≠ STRN_TYPE ∨ last.id ≠ STRD_TYPE then
                    .error (.aviErr .invalidStreamAdditionalData)
                  else
                    match u32checkedAdd last.dataSize last.padding with
                    | .error e => .error e
                    | .ok bufLen =>
                      match readExact src cur2 bufLen with
                      | .error e => .error e
                      | .ok (buf, cur3) =>
                        let item' :=
                          if last.id = STRN_TYPE then { item with strn := some buf }
                          else { item with strd := some buf }
                        match parseStrls src cur3 (i + 1) rest with
                        | .error e => .error e
                        | .ok (items, cur4) => .ok (item' :: items, cur4)
                | _ => .error .panicked
              else
                match restChilds with
                | [strdNode, strnNode] =>
                  if strdNode.id ≠ STRD_TYPE ∨ strnNode.id ≠ STRN_TYPE then
                    .error (.aviErr .invalidStreamAdditionalData)
                  else
                    match u32checkedAdd strdNode.dataSize strdNode.padding with
                    | .error e => .error e
                    | .ok strdLen =>
                      match readExact src cur2 strdLen with
                      | .error e => .error e
                      | .ok (strdBuf, cur3) =>
                        match u32checkedAdd strnNode.dataSize strnNode.padding with
                        | .error e => .error e
                        | .ok strnLen =>
                          match readExact src cur3 strnLen with
                          | .error e => .error e
                          | .ok (strnBuf, cur4) =>
                            let item' := { item with strd := some strdBuf, strn := some strnBuf }
                            match parseStrls src cur4 (i + 1) rest with
                            | .error e => .error e
                            | .ok (items, cur5) => .ok (item' :: items, cur5)
                | _ => .error .panicked
      | _ => .error .panicked

/-- Lines 582-592: one `AviStream` per stream-list item, in order. -/
def buildStreams : Nat → List AviStreamListItem → List AviStream
  | _, [] => []
  | i, item :: rest => ⟨i, item.strf, []⟩ :: buildStreams (i + 1) rest

/-- The inner record-list walk of lines 620-638: every child must be a leaf
chunk; its header is appended to the record list's catalog and an
`AviStreamChunk` tagged with the record index and ordinal `j` is appended
to its stream. -/
def recWalk (streams : List AviStream) (recs : List RiffChunkList)
    (recsIndex : Nat) : Nat → List RiffNode →
    Except AErr (List AviStream × List RiffChunkList)
  | _, [] => .ok (streams, recs)
  | j, chunk :: rest =>
    if ¬ chunk.childs.isEmpty then .error (.aviErr .invalidMoviList)
    else
      match chunk.asChunk with
      | .error e => .error e
      | .ok hdr =>
        let old := recs.getD recsIndex ⟨⟨0, 0, 0⟩, []⟩
        let recs' := recs.set recsIndex { old with childs := old.childs ++ [hdr] }
        match AviUtil.parseStreamIndex chunk.id with
        | .error e => .error e
        | .ok streamIndex =>
          match streams[streamIndex]? with
          | none => .error (.aviErr .invalidMoviList)
          | some st =>
            let st' := { st with
              chunks := st.chunks ++ [⟨some recsIndex, j, streamIndex, hdr⟩] }
            recWalk (streams.set streamIndex st') recs' recsIndex (j + 1) rest

/-- The `movi` walk of lines 597-642: leaf children are standalone media
chunks (stream index from the FourCC, `chunk_index` the stream's running
count); list children are record lists handled by `recWalk`. -/
def moviWalk (streams : List AviStream) (recs : List RiffChunkList) :
    List RiffNode → Except AErr (List AviStream × List RiffChunkList)
  | [] => .ok (streams, recs)
  | node :: rest =>
    if node.childs.isEmpty then
      match AviUtil.parseStreamIndex node.id with
      | .error e => .error e
      | .ok streamIndex =>
        match streams[streamIndex]? with
        | none => .error (.aviErr .invalidMoviList)
        | some st =>
          match node.asChunk with
          | .error e => .error e
          | .ok hdr =>
            let st' := { st with
              chunks := st.chunks ++ [⟨none, st.chunks.length, streamIndex, hdr⟩] }
            moviWalk (streams.set streamIndex st') recs rest
    else
      match node.asList with
      | .error e => .error e
      | .ok (lh, cs) =>
        let recs' := recs ++ [⟨lh, []⟩]
        let recsIndex := recs'.length - 1
        match recWalk streams recs' recsIndex 0 cs with
        | .error e => .error e
        | .ok (streams', recs'') => moviWalk streams' recs'' rest

/-- `AviAsyncReader::read_header`: RIFF parse (async entry point), file-type
check, top-level scan, `hdrl` parsing (avih then the `strl` loop), stream
catalog construction and the `movi` walk. -/
def readHeader (fuel : Nat) (src : List Nat) : Except AErr AviAsyncReader :=
  match RiffTree.readAsync fuel src with
  | .error e => .error e
  | .ok tree =>
    if tree.header.fileType ≠ AVI_FILE_TYPE then
      .error (.aviErr .invalidRiffFileType)
    else
      match scanTop tree.childs none none none with
      | .error e => .error e
      | .ok (hdrlOpt, moviOpt, _idx1Opt) =>
        match hdrlOpt with
        | none => .error (.aviErr .hdrlNotFound)
        | some hdrl =>
          let hdrlChilds := hdrl.childs
          if hdrlChilds.length > AVI_MAX_STREAMS + 1 then
            .error (.aviErr .invalidHdrlList)
          else
            match nodeIndexChecked hdrlChilds 0 with
            | .error e => .error e
            | .ok avihNode =>
              if ¬ avihSizeOk avihNode then .error (.aviErr .invalidMainHeader)
              else
                match AviMainHeader.readAsync src avihNode.dataPos with
                | .error e => .error e
                | .ok (avih, cur1) =>
                  match parseStrls src cur1 1 (hdrlChilds.drop 1) with
                  | .error e => .error e
                  | .ok (strl, _cur2) =>
                    let header : AviHeader := ⟨avih, strl⟩
                    let streams := buildStreams 0 header.strl
                    match moviOpt with
                    | none => .error (.aviErr .moviNotFound)
                    | some moviNode =>
                      match moviWalk streams [] moviNode.childs with
                      | .error e => .error e
                      | .ok (streams2, recs) =>
                        .ok ⟨header, tree, streams2, recs⟩

/-! ## Random-access reading (src/lib.rs `read_standalone_chunk`) -/

/-- Overwrite the prefix of `dst` with `vals` (the effect of filling the
slice `dst[0..vals.len()]`). -/
def fillPrefix (dst vals : List Nat) : List Nat :=
  vals ++ dst.drop vals.length

/-- `AviAsyncReader::read_standalone_chunk`: reject record-list chunks,
slice `buf[0..chunk_size]` (panics when the buffer is shorter), seek to the
chunk's data position and `read` up to `chunk_size` bytes into it. -/
def readStandaloneChunk (src : List Nat) (chunk : AviStreamChunk)
    (buf : List Nat) : Except AErr (List Nat) :=
  if chunk.recIndex.isSome then .error (.aviErr .chunkInRecordList)
  else
    let chunkSize := chunk.chunk.ckSize
    if chunkSize ≤ buf.length then
      let cur := chunk.chunk.dataPos
      let k := min chunkSize (src.length - cur)
      .ok (fillPrefix buf (extractBytes src cur k))
    else .error .panicked

/-! ## Diagnostic accessors over parsed trees -/

/-- The `hdrl` node selected by `read_header`'s top-level scan. -/
def hdrlNode (fuel : Nat) (src : List Nat) : Option RiffNode :=
  match RiffTree.readAsync fuel src with
  | .error _ => none
  | .ok tree =>
    match scanTop tree.childs none none none with
    | .error _ => none
    | .ok (hdrlOpt, _, _) => hdrlOpt

/-- Child `i` of the `hdrl` list. -/
def hdrlChildNode (fuel : Nat) (src : List Nat) (i : Nat) : Option RiffNode :=
  (hdrlNode fuel src).bind fun h => h.childs[i]?

/-- Child `j` of `hdrl` child `i` (e.g. the `strf` of a stream list). -/
def strlGrandchild (fuel : Nat) (src : List Nat) (i j : Nat) : Option RiffNode :=
  (hdrlChildNode fuel src i).bind fun c => c.childs[j]?

/-! ## Concrete byte sources

Each example is a complete little file; the helper `le32` writes a
little-endian `u32` and FourCCs are spelled as their four ASCII codes. -/

/-- Little-endian u32 serialisation. -/
def le32 (n : Nat) : List Nat :=
  [n % 256, n / 256 % 256, n / 65536 % 256, n / 16777216 % 256]

/-- A 100-byte AVI whose `hdrl` has a single 56-byte first child with id
`xxxx` (not `avih`) and an empty `movi` list: `read_header` succeeds. -/
def exC5 : List Nat :=
  [82, 73, 70, 70] ++ le32 92 ++ [65, 86, 73, 32] ++
  [76, 73, 83, 84] ++ le32 68 ++ [104, 100, 114, 108] ++
  [120, 120, 120, 120] ++ le32 56 ++ List.replicate 56 0 ++
  [76, 73, 83, 84] ++ le32 4 ++ [109, 111, 118, 105]

/-- A 102-byte AVI whose `hdrl` first child is a genuine `avih` chunk but
with declared size 57: `read_header` rejects it with `InvalidMainHeader`. -/
def exC5b : List Nat :=
  [82, 73, 70, 70] ++ le32 94 ++ [65, 86, 73, 32] ++
  [76, 73, 83, 84] ++ le32 70 ++ [104, 100, 114, 108] ++
  [97, 118, 105, 104] ++ le32 57 ++ List.replicate 58 0 ++
  [76, 73, 83, 84] ++ le32 4 ++ [109, 111, 118, 105]

/-- A 236-byte AVI with one video stream whose `strl` has exactly three
children `strh`, `strf`, `strd` (the layout the spec says is accepted). -/
def exC1 : List Nat :=
  [82, 73, 70, 70] ++ le32 228 ++ [65, 86, 73, 32] ++
  [76, 73, 83, 84] ++ le32 204 ++ [104, 100, 114, 108] ++
  [97, 118, 105, 104] ++ le32 56 ++ List.replicate 56 0 ++
  [76, 73, 83, 84] ++ le32 128 ++ [115, 116, 114, 108] ++
  [115, 116, 114, 104] ++ le32 56 ++ [118, 105, 100, 115] ++ List.replicate 52 0 ++
  [115, 116, 114, 102] ++ le32 40 ++ List.replicate 40 0 ++
  [115, 116, 114, 100] ++ le32 4 ++ List.replicate 4 0 ++
  [76, 73, 83, 84] ++ le32 4 ++ [109, 111, 118, 105]

/-- A 216-byte AVI with one audio stream whose `strf`-position bytes decode
to wave format tag `0xFFFE` (`WAVE_FORMAT_EXTENSIBLE`), with enough bytes
for the whole extension block. -/
def exC2 : List Nat :=
  [82, 73, 70, 70] ++ le32 192 ++ [65, 86, 73, 32] ++
  [76, 73, 83, 84] ++ le32 168 ++ [104, 100, 114, 108] ++
  [97, 118, 105, 104] ++ le32 56 ++ List.replicate 56 0 ++
  [76, 73, 83, 84] ++ le32 92 ++ [115, 116, 114, 108] ++
  [115, 116, 114, 104] ++ le32 56 ++ [97, 117, 100, 115] ++ List.replicate 52 0 ++
  [254, 255, 0, 0] ++ le32 16 ++ List.replicate 16 0 ++
  [76, 73, 83, 84] ++ le32 4 ++ [109, 111, 118, 105] ++
  List.replicate 16 0

/-- A standalone byte source for `AviWaveInfoExt::read_async`: wave format
tag `0xFFFE`, then enough bytes for `cb_size` and the extension block. -/
def exWaveExt : List Nat :=
  [254, 255] ++ List.replicate 40 0

/-- A 198-byte AVI with one audio stream whose `strf` declares data size 14
(the minimum the spec claims is accepted). -/
def exC4 : List Nat :=
  [82, 73, 70, 70] ++ le32 190 ++ [65, 86, 73, 32] ++
  [76, 73, 83, 84] ++ le32 166 ++ [104, 100, 114, 108] ++
  [97, 118, 105, 104] ++ le32 56 ++ List.replicate 56 0 ++
  [76, 73, 83, 84] ++ le32 90 ++ [115, 116, 114, 108] ++
  [115, 116, 114, 104] ++ le32 56 ++ [97, 117, 100, 115] ++ List.replicate 52 0 ++
  [115, 116, 114, 102] ++ le32 14 ++ List.replicate 14 0 ++
  [76, 73, 83, 84] ++ le32 4 ++ [109, 111, 118, 105]

/-- A 200-byte AVI with one audio stream whose `strf` declares data size 16:
`read_header` succeeds. -/
def exC4b : List Nat :=
  [82, 73, 70, 70] ++ le32 192 ++ [65, 86, 73, 32] ++
  [76, 73, 83, 84] ++ le32 168 ++ [104, 100, 114, 108] ++
  [97, 118, 105, 104] ++ le32 56 ++ List.replicate 56 0 ++
  [76, 73, 83, 84] ++ le32 92 ++ [115, 116, 114, 108] ++
  [115, 116, 114, 104] ++ le32 56 ++ [97, 117, 100, 115] ++ List.replicate 52 0 ++
  [115, 116, 114, 102] ++ le32 16 ++ List.replicate 16 0 ++
  [76, 73, 83, 84] ++ le32 4 ++ [109, 111, 118, 105]

/-- The same file with the `strf` declaring data size 15 (and one physical
padding byte): `read_header` rejects it. -/
def exC4c : List Nat :=
  [82, 73, 70, 70] ++ le32 192 ++ [65, 86, 73, 32] ++
  [76, 73, 83, 84] ++ le32 168 ++ [104, 100, 114, 108] ++
  [97, 118, 105, 104] ++ le32 56 ++ List.replicate 56 0 ++
  [76, 73, 83, 84] ++ le32 92 ++ [115, 116, 114, 108] ++
  [115, 116, 114, 104] ++ le32 56 ++ [97, 117, 100, 115] ++ List.replicate 52 0 ++
  [115, 116, 114, 102] ++ le32 15 ++ List.replicate 16 0 ++
  [76, 73, 83, 84] ++ le32 4 ++ [109, 111, 118, 105]

/-- A 212-byte AVI with one (audio) stream and a `movi` list holding one
chunk named `05dc`: stream index 5 is out of range for 1 stream. -/
def exC6movi : List Nat :=
  [82, 73, 70, 70] ++ le32 200 ++ [65, 86, 73, 32] ++
  [76, 73, 83, 84] ++ le32 168 ++ [104, 100, 114, 108] ++
  [97, 118, 105, 104] ++ le32 56 ++ List.replicate 56 0 ++
  [76, 73, 83, 84] ++ le32 92 ++ [115, 116, 114, 108] ++
  [115, 116, 114, 104] ++ le32 56 ++ [97, 117, 100, 115] ++ List.replicate 52 0 ++
  [115, 116, 114, 102] ++ le32 16 ++ List.replicate 16 0 ++
  [76, 73, 83, 84] ++ le32 12 ++ [109, 111, 118, 105] ++
  [48, 53, 100, 99] ++ le32 0 ++
  List.replicate 4 0

/-- A 36-byte AVI whose `hdrl` list has zero children. -/
def exC9 : List Nat :=
  [82, 73, 70, 70] ++ le32 28 ++ [65, 86, 73, 32] ++
  [76, 73, 83, 84] ++ le32 4 ++ [104, 100, 114, 108] ++
  [76, 73, 83, 84] ++ le32 4 ++ [109, 111, 118, 105]

/-- A 24-byte RIFF file whose single child is a LIST declaring
`list_size = 0`, which passes the file-length bounds check. -/
def exC10 : List Nat :=
  [82, 73, 70, 70] ++ le32 16 ++ [65, 86, 73, 32] ++
  [76, 73, 83, 84] ++ le32 0 ++ [120, 120, 120, 120]

/-- A 16-byte region holding a single non-LIST chunk `data` of declared
size 8 whose payload would end exactly at the physical end (offset 16). -/
def exC7 : List Nat :=
  [100, 97, 116, 97] ++ le32 8 ++ List.replicate 8 0

/-! ## Helper lemmas -/

/-- The two `read_fourcc` flavors have literally identical bodies. -/
theorem readFourcc_sync_async_eq : RiffUtil.readFourcc = RiffUtil.readFourccAsync := rfl

/-- The blocking and cooperative child-descent loops coincide on every
input, region and fuel. -/
theorem readChilds_sync_async_eq (fuel : Nat) :
    ∀ src cur pos size fileSize,
      RiffTree.readChilds fuel src cur pos size fileSize =
        RiffTree.readChildsAsync fuel src cur pos size fileSize := by
  induction fuel with
  | zero => intro src cur pos size fileSize; rfl
  | succ n ih =>
    intro src cur pos size fileSize
    rw [RiffTree.readChilds, RiffTree.readChildsAsync]
    simp only [readFourcc_sync_async_eq, ih]

theorem extractBytes_length (src : List Nat) (pos n : Nat) :
    (extractBytes src pos n).length = n := by
  simp [extractBytes]

theorem rustParseU8_cons (c : Nat) (rest : List Nat) :
    rustParseU8 (c :: rest) =
      if c = 43 ∧ rest = [] then .error .parseErr
      else parseDigits (if c = 43 then rest else c :: rest) 0 := rfl

theorem parseDigits_cons (c : Nat) (rest : List Nat) (acc : Nat) :
    parseDigits (c :: rest) acc =
      if isAsciiDigit c then
        (if acc * 10 + (c - 48) ≤ 255 then parseDigits rest (acc * 10 + (c - 48))
         else .error .parseErr)
      else .error .parseErr := rfl

theorem parseDigits_nil (acc : Nat) : parseDigits [] acc = .ok acc := rfl

/-! ## Claim theorems -/

/-- C1: the spec says a 3-child `strl` whose third child is `strd` (or
`strn`) is accepted and its raw bytes stored; the source's guard
`last_id != STRN_TYPE || last_id != STRD_TYPE` is a tautology, so
`read_header` returns `InvalidStreamAdditionalData` on exactly such an
input (`exC1` carries a genuine `strd` third child). -/
theorem C1_strl_third_child_always_rejected :
    (strlGrandchild 64 exC1 1 2).map RiffNode.id = some STRD_TYPE ∧
    readHeader 64 exC1 = .error (.aviErr .invalidStreamAdditionalData) :=
  ⟨rfl, rfl⟩

/-- C2: the spec says `AviWaveInfoExt` decoding of a `WAVE_FORMAT_EXTENSIBLE`
stream succeeds, placing the 8 GUID tail bytes in `data4`; the source's copy
loop `for i in 14..22 { data4[i] = buf[i] }` indexes the 8-element `data4`
out of bounds and aborts, both at the record level and from `read_header`. -/
theorem C2_extensible_guid_copy_panics :
    AviWaveInfoExt.readAsync exWaveExt 0 = .error .panicked ∧
    readHeader 64 exC2 = .error .panicked :=
  ⟨rfl, rfl⟩

/-- C3: `read_standalone_chunk` on a chunk with `rec_index == None`, a
buffer at least `data_size` long and a source holding the payload succeeds,
and afterwards the first `data_size` bytes of the buffer are the chunk's
payload bytes while the rest of the buffer is untouched. -/
theorem C3_read_standalone_chunk_reads_payload
    (src buf : List Nat) (chunk : AviStreamChunk)
    (h1 : chunk.recIndex = none)
    (h2 : chunk.chunk.ckSize ≤ buf.length)
    (h3 : chunk.chunk.dataPos + chunk.chunk.ckSize ≤ src.length) :
    readStandaloneChunk src chunk buf =
      .ok (fillPrefix buf (extractBytes src chunk.chunk.dataPos chunk.chunk.ckSize)) ∧
    (fillPrefix buf (extractBytes src chunk.chunk.dataPos chunk.chunk.ckSize)).take
        chunk.chunk.ckSize = extractBytes src chunk.chunk.dataPos chunk.chunk.ckSize ∧
    (fillPrefix buf (extractBytes src chunk.chunk.dataPos chunk.chunk.ckSize)).drop
        chunk.chunk.ckSize = buf.drop chunk.chunk.ckSize ∧
    (fillPrefix buf (extractBytes src chunk.chunk.dataPos chunk.chunk.ckSize)).length
      = buf.length := by
  have hlen := extractBytes_length src chunk.chunk.dataPos chunk.chunk.ckSize
  have hk : min chunk.chunk.ckSize (src.length - chunk.chunk.dataPos) =
      chunk.chunk.ckSize := Nat.min_eq_left (by omega)
  refine ⟨?_, ?_, ?_, ?_⟩
  · simp [readStandaloneChunk, h1, h2, hk]
  · rw [fillPrefix, List.take_left' hlen]
  · rw [fillPrefix, List.drop_left' hlen, hlen]
  · simp [fillPrefix, hlen]
    omega

/-- C3 witness: reading the 2-byte chunk at data position 1 of a 5-byte
source into a 3-byte buffer. -/
theorem C3_witness :
    readStandaloneChunk [1, 2, 3, 4, 5] ⟨none, 0, 0, ⟨0x64617461, 2, 1⟩⟩ [9, 9, 9] =
      .ok (fillPrefix [9, 9, 9] (extractBytes [1, 2, 3, 4, 5] 1 2)) ∧
    (fillPrefix [9, 9, 9] (extractBytes [1, 2, 3, 4, 5] 1 2)).take 2 =
      extractBytes [1, 2, 3, 4, 5] 1 2 ∧
    (fillPrefix [9, 9, 9] (extractBytes [1, 2, 3, 4, 5] 1 2)).drop 2 =
      ([9, 9, 9] : List Nat).drop 2 ∧
    (fillPrefix [9, 9, 9] (extractBytes [1, 2, 3, 4, 5] 1 2)).length =
      ([9, 9, 9] : List Nat).length :=
  C3_read_standalone_chunk_reads_payload [1, 2, 3, 4, 5]
    [9, 9, 9] ⟨none, 0, 0, ⟨0x64617461, 2, 1⟩⟩ rfl (by decide) (by decide)

/-- C4 counterexample: the spec says every audio `strf` declared size ≥ 14
is accepted; `exC4` declares size 14 and `read_header` rejects it with
`InvalidStreamFormatHeader` (the source's threshold is
`size_of::<AviWaveInfo>() - size_of::<Option<u16>>() = 16`). -/
theorem C4_fourteen_byte_strf_rejected :
    (strlGrandchild 64 exC4 1 1).map RiffNode.dataSize = some 14 ∧
    readHeader 64 exC4 = .error (.aviErr .invalidStreamFormatHeader) :=
  ⟨rfl, rfl⟩

/-- C4 amended: the audio `strf` size test accepts exactly the declared
sizes ≥ 16 bytes; a 16-byte `strf` passes `read_header`'s format check and
a 15-byte one is rejected with `InvalidStreamFormatHeader`. -/
theorem C4_amended_sixteen_byte_minimum :
    (∀ n : Nat, audsStrfSizeOk n = true ↔ 16 ≤ n) ∧
    isOkB (readHeader 64 exC4b) = true ∧
    readHeader 64 exC4c = .error (.aviErr .invalidStreamFormatHeader) := by
  refine ⟨fun n => ?_, rfl, rfl⟩
  simp [audsStrfSizeOk, sizeOfAviWaveInfo, sizeOfOptionU16, Nat.not_lt]

/-- C5 counterexample: `read_header` succeeds on `exC5` although the first
child of its `hdrl` list has id `xxxx` (0x78787878), not `avih`. -/
theorem C5_first_child_id_not_checked :
    isOkB (readHeader 64 exC5) = true ∧
    (hdrlChildNode 64 exC5 0).map RiffNode.id = some 0x78787878 ∧
    (0x78787878 : Nat) ≠ AVIH_TYPE :=
  ⟨rfl, rfl, by decide⟩

/-- C5 amended: only the declared size of the `hdrl` first child is tested
(it must equal the 56 bytes of `AviMainHeader`, else `InvalidMainHeader`);
the id is not inspected.  `exC5b` has a genuine `avih` id but size 57 and is
rejected. -/
theorem C5_amended_size_only_check :
    (∀ node : RiffNode, avihSizeOk node = true ↔ node.dataSize = 56) ∧
    (hdrlChildNode 64 exC5b 0).map RiffNode.id = some AVIH_TYPE ∧
    (hdrlChildNode 64 exC5b 0).map RiffNode.dataSize = some 57 ∧
    readHeader 64 exC5b = .error (.aviErr .invalidMainHeader) := by
  refine ⟨fun node => ?_, rfl, rfl, rfl⟩
  simp [avihSizeOk, sizeOfAviMainHeader]

/-- C6 counterexample: the spec says a FourCC whose first two bytes are not
both ASCII digits fails to parse; `"+5wb"` (0x2B357762) starts with `'+'`,
which is not a digit, yet `parse_stream_index` returns stream index 5
because Rust's `u8::parse` accepts a leading plus sign. -/
theorem C6_plus_sign_parses :
    isAsciiDigit 43 = false ∧
    AviUtil.parseStreamIndex 0x2B357762 = .ok 5 :=
  ⟨rfl, rfl⟩

/-- C6 amended: two leading ASCII digits `d1 d2` parse to `10*d1 + d2`; a
leading `'+'` followed by a digit also parses (to that digit's value); every
other combination of the first two bytes fails.  An in-range parse whose
index is ≥ the number of streams still yields `InvalidMoviList` (`exC6movi`
has one stream and a `movi` chunk named `05dc`). -/
theorem C6_amended_parse_stream_index :
    (∀ fc b0 b1 : Nat, b0 = fc / 16777216 % 256 → b1 = fc / 65536 % 256 →
      ((isAsciiDigit b0 = true ∧ isAsciiDigit b1 = true) →
        AviUtil.parseStreamIndex fc = .ok ((b0 - 48) * 10 + (b1 - 48))) ∧
      ((b0 = 43 ∧ isAsciiDigit b1 = true) →
        AviUtil.parseStreamIndex fc = .ok (b1 - 48)) ∧
      (¬ (isAsciiDigit b0 = true ∧ isAsciiDigit b1 = true) →
        ¬ (b0 = 43 ∧ isAsciiDigit b1 = true) →
        isOkB (AviUtil.parseStreamIndex fc) = false)) ∧
    readHeader 64 exC6movi = .error (.aviErr .invalidMoviList) := by
  refine ⟨?_, rfl⟩
  intro fc b0 b1 hb0 hb1
  have hbytes : (fourccBytes fc).getD 0 0 = b0 ∧ (fourccBytes fc).getD 1 0 = b1 := by
    constructor <;> simp [fourccBytes, hb0, hb1]
  have hb0lt : b0 < 256 := by omega
  have hb1lt : b1 < 256 := by omega
  simp only [AviUtil.parseStreamIndex, hbytes.1, hbytes.2]
  refine ⟨?_, ?_, ?_⟩
  · rintro ⟨h0, h1⟩
    simp only [isAsciiDigit, decide_eq_true_eq] at h0 h1
    have hu : utf8Valid2 b0 b1 = true := by
      simp only [utf8Valid2, decide_eq_true_eq]
      left; omega
    rw [if_pos hu, rustParseU8_cons]
    rw [if_neg (by simp)]
    rw [if_neg (by omega : ¬ b0 = 43)]
    rw [parseDigits_cons]
    rw [if_pos (by simp only [isAsciiDigit, decide_eq_true_eq]; omega)]
    rw [if_pos (by omega)]
    rw [parseDigits_cons]
    rw [if_pos (by simp only [isAsciiDigit, decide_eq_true_eq]; omega)]
    rw [if_pos (by omega)]
    rw [parseDigits_nil]
    norm_num
  · rintro ⟨h0, h1⟩
    simp only [isAsciiDigit, decide_eq_true_eq] at h1
    subst h0
    have hu : utf8Valid2 43 b1 = true := by
      simp only [utf8Valid2, decide_eq_true_eq]
      left; omega
    rw [if_pos hu, rustParseU8_cons]
    rw [if_neg (by simp)]
    rw [if_pos rfl]
    rw [parseDigits_cons]
    rw [if_pos (by simp only [isAsciiDigit, decide_eq_true_eq]; omega)]
    rw [if_pos (by omega)]
    rw [parseDigits_nil]
    norm_num
  · intro hnd hnp
    by_cases hu : utf8Valid2 b0 b1 = true
    · rw [if_pos hu, rustParseU8_cons]
      rw [if_neg (by simp)]
      by_cases h43 : b0 = 43
      · rw [if_pos h43]
        have h1nd : ¬ isAsciiDigit b1 = true := fun h => hnp ⟨h43, h⟩
        rw [parseDigits_cons, if_neg h1nd]
        rfl
      · rw [if_neg h43]
        by_cases h0d : isAsciiDigit b0 = true
        · have h1nd : ¬ isAsciiDigit b1 = true := fun h => hnd ⟨h0d, h⟩
          rw [parseDigits_cons, if_pos h0d]
          rw [if_pos (by simp only [isAsciiDigit, decide_eq_true_eq] at h0d; omega)]
          rw [parseDigits_cons, if_neg h1nd]
          rfl
        · rw [parseDigits_cons, if_neg h0d]
          rfl
    · rw [if_neg hu]
      rfl

/-- C6 witness: the FourCC `"19wb"` (0x31397762) parses to stream index 19
through the amended characterization. -/
theorem C6_amended_witness :
    AviUtil.parseStreamIndex 0x31397762 = .ok 19 := by
  have h := (C6_amended_parse_stream_index.1 0x31397762 49 57 (by norm_num)
    (by norm_num)).1 ⟨by decide, by decide⟩
  simpa using h

/-- C7: in either descent flavor, a non-LIST chunk read inside a region
`(pos, size)` whose declared size satisfies `pos + 8 + chunk_size ≥
fileSize` makes the reader fail with `InvalidChunkHeader`; the comparison is
strict `≥`, so equality (a chunk ending exactly at EOF) is rejected. -/
theorem C7_chunk_bound_strict
    (fuel : Nat) (src : List Nat) (cur pos size fileSize : Nat)
    (h1 : cur < pos + size)
    (h2 : (RiffUtil.readFourcc src cur).1 ≠ LIST_TYPE)
    (h3 : (RiffUtil.readFourcc src cur).2 + 4 ≤ src.length)
    (h4 : pos + 8 + leU32 (extractBytes src (RiffUtil.readFourcc src cur).2 4) 0
            ≥ fileSize) :
    RiffTree.readChilds (fuel + 1) src cur pos size fileSize =
      .error (.riffErr .invalidChunkHeader) ∧
    RiffTree.readChildsAsync (fuel + 1) src cur pos size fileSize =
      .error (.riffErr .invalidChunkHeader) := by
  constructor
  · rw [RiffTree.readChilds, if_pos h1, if_neg h2]
    rw [readExact, if_pos h3]
    simp only
    rw [if_pos h4]
  · rw [RiffTree.readChildsAsync, if_pos h1,
      if_neg (readFourcc_sync_async_eq ▸ h2)]
    rw [readExact, if_pos (readFourcc_sync_async_eq ▸ h3)]
    simp only
    rw [if_pos (readFourcc_sync_async_eq ▸ h4)]

/-- C7 witness: the single chunk of `exC7` has `pos + 8 + chunk_size = 16 =
fileSize` — it would end exactly at the physical end of the file — and both
readers reject it with `InvalidChunkHeader`. -/
theorem C7_witness :
    RiffTree.readChilds 1 exC7 0 0 16 16 = .error (.riffErr .invalidChunkHeader) ∧
    RiffTree.readChildsAsync 1 exC7 0 0 16 16 =
      .error (.riffErr .invalidChunkHeader) :=
  C7_chunk_bound_strict 0 exC7 0 0 16 16 (by decide) (by decide) (by decide)
    (by decide)

/-- C8: the blocking entry point `RiffTree::read` and the
cooperative-concurrent entry point `RiffTree::read_async` return equal
results — the same error, or structurally identical trees (equal headers
and node-for-node equal children) — on every input and fuel. -/
theorem C8_read_entry_points_agree :
    ∀ fuel src, RiffTree.read fuel src = RiffTree.readAsync fuel src := by
  intro fuel src
  unfold RiffTree.read RiffTree.readAsync
  simp only [readChilds_sync_async_eq]

/-- C9: the spec says `read_header` never panics and an empty `hdrl` yields
an error; on `exC9` (a well-formed RIFF/AVI whose `hdrl` LIST has zero
children) the source indexes `hdrl_childs[0]` out of bounds and aborts. -/
theorem C9_empty_hdrl_panics :
    (hdrlNode 64 exC9).map (fun h => h.childs.length) = some 0 ∧
    readHeader 64 exC9 = .error .panicked :=
  ⟨rfl, rfl⟩

/-- C10: the spec says a LIST declaring `list_size < 4` that passes the
file-length bounds check is rejected before `list_size - 4` is evaluated;
on `exC10` (nested LIST with `list_size = 0`, bounds check passes since
`pos + 8 + 0 < 24`) both readers instead reach the u32 subtraction
`0 - 4`, which underflows (a debug-build abort in Rust). -/
theorem C10_list_size_underflow :
    RiffTree.readAsync 64 exC10 = .error .panicked ∧
    RiffTree.read 64 exC10 = .error .panicked :=
  ⟨rfl, rfl⟩

end Avi
